import Mathlib

/-!
# KOSGE frontend: request utilities, login handler, form validation, slideshow

A shallow embedding of `frontend/public/js/config.js` (error classifier,
request utility, retry wrapper) and of the login submit handler, the form
validation and the hero slideshow of `frontend/public/js/main.js`.

Modelling conventions.

* JavaScript values are the type `JSVal`: `undefined` together with the values
  JSON decoding and object literals produce. Numbers are the integral ones
  (HTTP statuses, counters), non-integral numbers are not represented; objects
  are plain records.
* A computation that may throw returns `Except JSVal α`; the error side carries
  the thrown value.
* The network is a script `Nat → FetchOutcome`: the outcome of the n-th call of
  `fetch` (counted from 0) during the run. Effects are recorded in a `World`.
* Console diagnostics (`debugLog`) are not recorded: they never alter control
  flow or any value.
-/

set_option linter.unusedVariables false

deriving instance DecidableEq for Except

namespace Kosge

/-! ## JavaScript values -/

mutual
/-- JavaScript values: `undefined` and the JSON-shaped values. -/
inductive JSVal where
  | undefined
  | null
  | bool (b : Bool)
  | num (n : Int)
  | str (s : String)
  | arr (xs : JSList)
  | obj (fs : JSFields)
  deriving DecidableEq
/-- Elements of an array, in index order. -/
inductive JSList where
  | nil
  | cons (v : JSVal) (rest : JSList)
  deriving DecidableEq
/-- Own properties of a plain object; the first entry of a key is the one read. -/
inductive JSFields where
  | nil
  | cons (k : String) (v : JSVal) (rest : JSFields)
  deriving DecidableEq
end

/-- Own property lookup. -/
def JSFields.lookup (k : String) : JSFields → Option JSVal
  | .nil => none
  | .cons k2 v rest => if k2 = k then some v else JSFields.lookup k rest

/-- The empty record, written with empty braces in the source. -/
def emptyRecord : JSVal := .obj .nil

/-- A `TypeError` raised by the runtime (its message text is engine specific and
not recorded). -/
def typeError : JSVal := .obj (.cons "name" (.str "TypeError") .nil)

/-- The value of `new Error(message)`, as the record of its readable fields. -/
def newError (message : String) : JSVal :=
  .obj (.cons "name" (.str "Error") (.cons "message" (.str message) .nil))

/-- Property read `v.k`, for the property names this program reads (`response`,
`request`, `status`, `data`, `error`, `token`): reading from `undefined` or
`null` throws a `TypeError`; a plain object yields its own property or
`undefined`; every other value yields `undefined`. -/
def getProp (v : JSVal) (k : String) : Except JSVal JSVal :=
  match v with
  | .undefined => .error typeError
  | .null => .error typeError
  | .obj fs => .ok ((fs.lookup k).getD .undefined)
  | _ => .ok .undefined

/-- JavaScript truthiness (`ToBoolean`). -/
def truthy : JSVal → Bool
  | .undefined => false
  | .null => false
  | .bool b => b
  | .num n => n != 0
  | .str s => s != ""
  | .arr _ => true
  | .obj _ => true

/-- The operator `a || b` on values (the right operand is a constant here). -/
def jsOr (a b : JSVal) : JSVal := if truthy a then a else b

/-- The double-precision value of the natural number `v`: the nearest number of
the form `m * 2^e` with `m < 2^53`, a tie going to the even `m`. -/
def roundToDouble (v : Nat) : Nat :=
  let bits := (Nat.toDigits 2 v).length
  if bits ≤ 53 then v
  else
    let sh := bits - 53
    let q := v / 2 ^ sh
    let r := v % 2 ^ sh
    let half := 2 ^ (sh - 1)
    let q2 := if half < r || (r == half && q % 2 == 1) then q + 1 else q
    q2 * 2 ^ sh

/-- The candidates with `k` digits for the digit string of `x`: a significand
`s`, the exponent `n`, and the distance of `s * 10^(n-k)` from `x`. Only the
candidates whose double-precision value is `x` are kept. -/
def digitCandidates (x k : Nat) : List (Nat × Nat × Nat) :=
  let D := (Nat.toDigits 10 x).length
  let p := D - k
  let lo := x / 10 ^ p
  let cands := [(lo, x - lo * 10 ^ p), (lo + 1, (lo + 1) * 10 ^ p - x)]
  (cands.filter (fun c => roundToDouble (c.1 * 10 ^ p) == x)).map
    (fun c => if c.1 == 10 ^ k then (10 ^ (k - 1), D + 1, c.2) else (c.1, D, c.2))

/-- The candidate to print: the nearest one, the even one on a tie. -/
def bestCandidate : List (Nat × Nat × Nat) → Option (Nat × Nat)
  | [] => none
  | [c] => some (c.1, c.2.1)
  | c :: d :: _ =>
    if c.2.2 < d.2.2 || (c.2.2 == d.2.2 && c.1 % 2 == 0) then some (c.1, c.2.1)
    else some (d.1, d.2.1)

/-- The shortest digit string that denotes `x`: the digit count `k`, the
significand and the exponent, for the first `k` from 1 to 17 that has a
candidate. -/
def shortestDigits (x : Nat) : Option (Nat × Nat × Nat) :=
  ((List.range 17).map (fun i => i + 1)).findSome? (fun k =>
    (bestCandidate (digitCandidates x k)).map (fun c => (k, c.1, c.2)))

/-- The text printed for a positive integral number of magnitude `2^53` or more:
the shortest digits, padded with zeros up to 21 digits and in exponent form
beyond (`1e+21`). -/
def jsLargeNumberText (x : Nat) : String :=
  match shortestDigits x with
  | none => toString x
  | some (k, s, n) =>
    let digits := Nat.toDigits 10 s
    if n ≤ 21 then String.mk (digits ++ List.replicate (n - k) '0')
    else if k = 1 then String.mk digits ++ "e+" ++ toString (n - 1)
    else
      String.mk (digits.take 1) ++ "." ++ String.mk (digits.drop 1) ++ "e+" ++ toString (n - 1)

/-- The text printed for an integral number (`Number::toString`): its decimal
digits below `2^53` in magnitude, where every integer is a number of the source
language, and the shortest digit string beyond. -/
def jsNumberText (n : Int) : String :=
  if n.natAbs < 2 ^ 53 then toString n
  else if n < 0 then "-" ++ jsLargeNumberText n.natAbs
  else jsLargeNumberText n.natAbs

mutual
/-- String conversion as performed by a template literal (`ToString`). A plain
object renders as `[object Object]` unless it has an own `toString` property,
which (never being callable in a JSON value) makes the conversion throw. -/
def JSVal.toStr : JSVal → Except JSVal String
  | .undefined => .ok "undefined"
  | .null => .ok "null"
  | .bool b => .ok (if b then "true" else "false")
  | .num n => .ok (jsNumberText n)
  | .str s => .ok s
  | .arr xs => JSList.join xs
  | .obj fs =>
    match fs.lookup "toString" with
    | some _ => .error typeError
    | none => .ok "[object Object]"
/-- The text of `Array.prototype.join` with the default separator: `undefined`
and `null` elements render as the empty string. -/
def JSList.join : JSList → Except JSVal String
  | .nil => .ok ""
  | .cons v rest =>
    match (match v with
      | .undefined => Except.ok ""
      | .null => Except.ok ""
      | w => JSVal.toStr w) with
    | .error e => .error e
    | .ok a =>
      match rest with
      | .nil => .ok a
      | more =>
        match JSList.join more with
        | .error e => .error e
        | .ok b => .ok (a ++ "," ++ b)
end

/-! ## Configuration (`config.js`, lines 2-40) -/

namespace config
/-- The default attempt budget. -/
def MAX_RETRIES : Int := 3
/-- The base delay between attempts, in milliseconds. -/
def RETRY_DELAY : Int := 1000
/-- The request timeout, in milliseconds. -/
def TIMEOUT : Int := 10000
/-- The path of the login endpoint. -/
def ENDPOINTS_LOGIN : String := "/login"
/-- The least accepted length of a name. -/
def MIN_NAME_LENGTH : Nat := 2
/-- The least accepted length of a password. -/
def MIN_PASSWORD_LENGTH : Nat := 8
end config

/-! ## Error classifier (`handleApiError`, `config.js` lines 50-81) -/

/-- The error classifier. The `context` argument only feeds the diagnostic log
line. -/
def handleApiError (error : JSVal) (context : String) : Except JSVal String :=
  match getProp error "response" with
  | .error e => .error e
  | .ok response =>
    if truthy response then
      match getProp response "status" with
      | .error e => .error e
      | .ok status =>
        match getProp response "data" with
        | .error e => .error e
        | .ok data =>
          if status = .num 400 then
            match getProp data "error" with
            | .error e => .error e
            | .ok detail =>
              match (jsOr detail (.str "Invalid data provided")).toStr with
              | .error e => .error e
              | .ok d => .ok ("Validation error: " ++ d)
          else if status = .num 401 then
            .ok "Authentication failed. Please check your credentials."
          else if status = .num 403 then
            .ok "Access denied. You do not have permission for this action."
          else if status = .num 404 then
            .ok "Resource not found."
          else if status = .num 429 then
            .ok "Too many requests. Please try again later."
          else if status = .num 500 then
            .ok "Server error. Please try again later."
          else
            match status.toStr with
            | .error e => .error e
            | .ok st =>
              match getProp data "error" with
              | .error e => .error e
              | .ok detail =>
                match (jsOr detail (.str "Unknown error")).toStr with
                | .error e => .error e
                | .ok d => .ok ("Server error (" ++ st ++ "): " ++ d)
    else
      match getProp error "request" with
      | .error e => .error e
      | .ok request =>
        if truthy request then
          .ok "Network error. Please check your connection."
        else
          .ok "An unexpected error occurred."

/-! ## Network and effects -/

/-- A response object as the request utility reads it: `ok`, `status`, and what
`response.json()` settles to (the decoded body, or the rejection raised when the
body is malformed or absent). -/
structure Response where
  ok : Bool
  status : Int
  json : Except JSVal JSVal
  deriving DecidableEq

/-- What one call of `fetch` settles to: a rejection (no response received) or
a response. -/
inductive FetchOutcome where
  | rejected (reason : JSVal)
  | resolved (response : Response)
  deriving DecidableEq

/-- Observable effects of the request layer, in the order they happen. -/
inductive Event where
  | fetch (endpoint : String) (options : JSVal)
  | wait (ms : Int)
  deriving DecidableEq

/-- The effects of a run so far: the number of `fetch` calls made and the
chronological list of events. -/
structure World where
  calls : Nat
  trace : List Event
  deriving DecidableEq

/-- The world before anything happened. -/
def World.init : World := ⟨0, []⟩

/-- The delays awaited in a trace, in order. -/
def waitsOf : List Event → List Int
  | [] => []
  | .wait ms :: rest => ms :: waitsOf rest
  | .fetch _ _ :: rest => waitsOf rest

/-- The number of `fetch` calls in a trace. -/
def fetchesOf : List Event → Nat
  | [] => 0
  | .wait _ :: rest => fetchesOf rest
  | .fetch _ _ :: rest => fetchesOf rest + 1

/-! ## Request utility (`apiRequest`, `config.js` lines 84-117) -/

/-- The value thrown for a non-success response: a record whose `response`
field holds the status and the decoded body. -/
def statusFailure (status : Int) (data : JSVal) : JSVal :=
  .obj (.cons "response"
    (.obj (.cons "status" (.num status) (.cons "data" data .nil))) .nil)

/-- The body of the `try` block of `apiRequest`, given what `fetch` settled to.
The outer `catch` rethrows unchanged. -/
def apiRequestOutcome (o : FetchOutcome) : Except JSVal JSVal :=
  match o with
  | .rejected reason => .error reason
  | .resolved response =>
    if !response.ok then
      let errorData :=
        match response.json with
        | .ok d => d
        | .error _ => emptyRecord
      .error (statusFailure response.status errorData)
    else
      match response.json with
      | .ok data => .ok data
      | .error e => .error e

/-- One call of the request utility: it calls `fetch` once and settles as
`apiRequestOutcome` says. -/
def apiRequest (script : Nat → FetchOutcome) (endpoint : String) (options : JSVal)
    (w : World) : Except JSVal JSVal × World :=
  (apiRequestOutcome (script w.calls),
    ⟨w.calls + 1, w.trace ++ [Event.fetch endpoint options]⟩)

/-! ## Retry wrapper (`apiRequestWithRetry`, `config.js` lines 120-132) -/

/-- The `for` loop of the retry wrapper from counter value `i` on. The first
argument bounds the number of iterations still allowed; `none` means that bound
was hit. Falling out of the loop completes with `undefined`. -/
def retryLoop (script : Nat → FetchOutcome) (endpoint : String) (options : JSVal)
    (retries : Int) : Nat → Nat → World → Option (Except JSVal JSVal × World)
  | 0, i, w =>
    if (i : Int) < retries then none else some (.ok .undefined, w)
  | fuel + 1, i, w =>
    if (i : Int) < retries then
      match apiRequest script endpoint options w with
      | (.ok v, w1) => some (.ok v, w1)
      | (.error error, w1) =>
        if (i : Int) = retries - 1 then
          some (.error error, w1)
        else
          retryLoop script endpoint options retries fuel (i + 1)
            ⟨w1.calls, w1.trace ++ [Event.wait (config.RETRY_DELAY * ((i : Int) + 1))]⟩
    else some (.ok .undefined, w)

/-- The events of `m` consecutive failed attempts that are each followed by a
wait, the first of them made at counter value `i`. -/
def failedRounds (endpoint : String) (options : JSVal) : Nat → Nat → List Event
  | _, 0 => []
  | i, m + 1 =>
    Event.fetch endpoint options :: Event.wait (config.RETRY_DELAY * ((i : Int) + 1)) ::
      failedRounds endpoint options (i + 1) m

/-- The retry wrapper. The loop runs at most `retries` times, which is the
iteration bound handed to `retryLoop`. -/
def apiRequestWithRetry (script : Nat → FetchOutcome) (endpoint : String)
    (options : JSVal) (retries : Int) (w : World) :
    Option (Except JSVal JSVal × World) :=
  retryLoop script endpoint options retries retries.toNat 0 w

/-! ## Strings as the browser sees them -/

/-- The characters `String.prototype.trim` removes: ECMAScript white space and
line terminators. -/
def isJSWhiteSpace (c : Char) : Bool :=
  let n := c.toNat
  n == 0x09 || n == 0x0A || n == 0x0B || n == 0x0C || n == 0x0D || n == 0x20 ||
  n == 0xA0 || n == 0x1680 || (0x2000 ≤ n && n ≤ 0x200A) || n == 0x2028 ||
  n == 0x2029 || n == 0x202F || n == 0x205F || n == 0x3000 || n == 0xFEFF

/-- The method `String.prototype.trim`. -/
def jsTrim (s : String) : String :=
  String.mk (((s.data.dropWhile isJSWhiteSpace).reverse.dropWhile isJSWhiteSpace).reverse)

/-- The property `length` of a string: its number of UTF-16 code units. -/
def jsLength (s : String) : Nat :=
  (s.data.map (fun c => if c.toNat < 0x10000 then 1 else 2)).sum

/-- Membership in the class `[a-zA-Z]`. -/
def isAsciiLetter (c : Char) : Bool :=
  ('a' ≤ c && c ≤ 'z') || ('A' ≤ c && c ≤ 'Z')

/-- Membership in the class `[a-zA-Z0-9._%+-]`. -/
def isEmailLocalChar (c : Char) : Bool :=
  isAsciiLetter c || ('0' ≤ c && c ≤ '9') ||
  c == '.' || c == '_' || c == '%' || c == '+' || c == '-'

/-- Membership in the class `[a-zA-Z0-9.-]`. -/
def isEmailDomainChar (c : Char) : Bool :=
  isAsciiLetter c || ('0' ≤ c && c ≤ '9') || c == '.' || c == '-'

namespace config
/-- The test `VALIDATION.EMAIL_REGEX.test(s)`: the whole string splits as a
non-empty local part, an at sign at position `i`, a non-empty domain, a dot at
position `j`, and at least two letters. -/
def EMAIL_REGEX_test (s : String) : Bool :=
  let cs := s.data
  (List.range cs.length).any fun i =>
    (List.range cs.length).any fun j =>
      decide (i < j) && cs.get? i == some '@' && cs.get? j == some '.' &&
      decide (0 < i) && (cs.take i).all isEmailLocalChar &&
      decide (i + 1 < j) && ((cs.take j).drop (i + 1)).all isEmailDomainChar &&
      decide (j + 3 ≤ cs.length) && (cs.drop (j + 1)).all isAsciiLetter
end config

/-! ## Form validation (`validateInput`, `main.js` lines 301-359) -/

/-- A form control as validation reads and marks it: its `value`, its `type`
property, whether it has the `required` attribute, whether it carries the
class `error`, and the text of the `.error-message` element of its parent node
(`none` when there is no such element). -/
structure InputEl where
  value : String
  type : String
  required : Bool
  errorClass : Bool
  errorMessage : Option String
  deriving DecidableEq

/-- Marks the control as erroneous and sets the text of the message element,
creating it when absent. -/
def showInputError (input : InputEl) (message : String) : InputEl :=
  { input with errorClass := true, errorMessage := some message }

/-- Removes the error mark and the message element. -/
def clearInputError (input : InputEl) : InputEl :=
  { input with errorClass := false, errorMessage := none }

/-- Validation of one control: the verdict and the control as it is left. -/
def validateInput (input : InputEl) : Bool × InputEl :=
  let value := jsTrim input.value
  let type := input.type
  let required := input.required
  let input := clearInputError input
  if required && value == "" then
    (false, showInputError input "This field is required")
  else if type == "email" then
    if value != "" && !config.EMAIL_REGEX_test value then
      (false, showInputError input "Please enter a valid email address")
    else (true, input)
  else if type == "password" then
    if value != "" && decide (jsLength value < config.MIN_PASSWORD_LENGTH) then
      (false, showInputError input
        ("Password must be at least " ++ toString config.MIN_PASSWORD_LENGTH ++ " characters"))
    else (true, input)
  else if type == "text" then
    if value != "" && decide (jsLength value < config.MIN_NAME_LENGTH) then
      (false, showInputError input
        ("Name must be at least " ++ toString config.MIN_NAME_LENGTH ++ " characters"))
    else (true, input)
  else (true, input)

/-! ## Login submit handler (`initAdminLogin`, `main.js` lines 59-107) -/

/-- What the submit handler changes on the page: the notifications shown (text
and kind, in order), whether the login modal is open, the stored `admin_token`,
whether the redirect timer was set, and the state of the submit button. -/
structure LoginUI where
  notifications : List (String × String)
  modalOpen : Bool
  adminToken : Option String
  redirectScheduled : Bool
  submitDisabled : Bool
  submitText : String
  deriving DecidableEq

/-- The page when the form is submitted: modal open, nothing shown yet. -/
def LoginUI.init : LoginUI := ⟨[], true, none, false, false, "Login"⟩

/-- The function `showNotification`, as far as the list of shown messages goes. -/
def showNotification (ui : LoginUI) (message kind : String) : LoginUI :=
  { ui with notifications := ui.notifications ++ [(message, kind)] }

/-- The options of the login request. The `body` is recorded as the record that
the source serialises, not as its JSON text. -/
def loginOptions (username password : String) : JSVal :=
  .obj (.cons "method" (.str "POST")
    (.cons "body" (.obj (.cons "username" (.str username)
      (.cons "password" (.str password) .nil))) .nil))

/-- The `try` block of the submit handler. -/
def loginTry (script : Nat → FetchOutcome) (username password : String)
    (ui : LoginUI) (w : World) : Option (Except JSVal Unit × LoginUI × World) :=
  if username == "" || password == "" then
    some (.error (newError "Username and password are required"), ui, w)
  else
    match apiRequestWithRetry script config.ENDPOINTS_LOGIN
        (loginOptions username password) config.MAX_RETRIES w with
    | none => none
    | some (.error error, w1) => some (.error error, ui, w1)
    | some (.ok response, w1) =>
      let ui1 := { showNotification ui "Login successful!" "success" with modalOpen := false }
      match getProp response "token" with
      | .error e => some (.error e, ui1, w1)
      | .ok token =>
        if truthy token then
          match token.toStr with
          | .error e => some (.error e, ui1, w1)
          | .ok t => some (.ok (), { ui1 with adminToken := some t, redirectScheduled := true }, w1)
        else
          some (.ok (), { ui1 with redirectScheduled := true }, w1)

/-- The submit handler: `try`, then `catch` (classify and notify), then
`finally` (re-enable the button). An `error` result is the rejection of the
handler itself, raised out of its `catch` block. -/
def submitLogin (script : Nat → FetchOutcome) (usernameField passwordField : String)
    (ui : LoginUI) (w : World) : Option (Except JSVal Unit × LoginUI × World) :=
  let username := jsTrim usernameField
  let password := passwordField
  let ui0 := { ui with submitDisabled := true, submitText := "Logging in..." }
  match loginTry script username password ui0 w with
  | none => none
  | some (.ok (), ui1, w1) =>
    some (.ok (), { ui1 with submitDisabled := false, submitText := "Login" }, w1)
  | some (.error error, ui1, w1) =>
    match handleApiError error "Admin Login" with
    | .ok errorMessage =>
      some (.ok (), { showNotification ui1 errorMessage "error" with
        submitDisabled := false, submitText := "Login" }, w1)
    | .error e =>
      some (.error e, { ui1 with submitDisabled := false, submitText := "Login" }, w1)

/-- The `try` block of the submit handler with the configured attempt budget
(`MAX_RETRIES`, the default of the retry wrapper) as a parameter. -/
def loginTryWith (maxRetries : Int) (script : Nat → FetchOutcome)
    (username password : String) (ui : LoginUI) (w : World) :
    Option (Except JSVal Unit × LoginUI × World) :=
  if username == "" || password == "" then
    some (.error (newError "Username and password are required"), ui, w)
  else
    match apiRequestWithRetry script config.ENDPOINTS_LOGIN
        (loginOptions username password) maxRetries w with
    | none => none
    | some (.error error, w1) => some (.error error, ui, w1)
    | some (.ok response, w1) =>
      let ui1 := { showNotification ui "Login successful!" "success" with modalOpen := false }
      match getProp response "token" with
      | .error e => some (.error e, ui1, w1)
      | .ok token =>
        if truthy token then
          match token.toStr with
          | .error e => some (.error e, ui1, w1)
          | .ok t => some (.ok (), { ui1 with adminToken := some t, redirectScheduled := true }, w1)
        else
          some (.ok (), { ui1 with redirectScheduled := true }, w1)

/-- The submit handler with the configured attempt budget as a parameter. -/
def submitLoginWith (maxRetries : Int) (script : Nat → FetchOutcome)
    (usernameField passwordField : String) (ui : LoginUI) (w : World) :
    Option (Except JSVal Unit × LoginUI × World) :=
  let username := jsTrim usernameField
  let password := passwordField
  let ui0 := { ui with submitDisabled := true, submitText := "Logging in..." }
  match loginTryWith maxRetries script username password ui0 w with
  | none => none
  | some (.ok (), ui1, w1) =>
    some (.ok (), { ui1 with submitDisabled := false, submitText := "Login" }, w1)
  | some (.error error, ui1, w1) =>
    match handleApiError error "Admin Login" with
    | .ok errorMessage =>
      some (.ok (), { showNotification ui1 errorMessage "error" with
        submitDisabled := false, submitText := "Login" }, w1)
    | .error e =>
      some (.error e, { ui1 with submitDisabled := false, submitText := "Login" }, w1)

/-! ## Hero slideshow (`initHeroSlideshow`, `main.js` lines 111-178) -/

/-- The state of the slideshow: the counter `currentSlide` and, for each element
of `heroSlides` in order, whether it carries the class `active`. -/
structure Slideshow where
  currentSlide : Int
  heroSlides : List Bool
  deriving DecidableEq

/-- The function `showSlide`: an index out of range changes nothing; otherwise
the class is removed from every slide and added to the slide at `index`. -/
def showSlide (index : Int) (heroSlides : List Bool) : List Bool :=
  if index < 0 || index ≥ (heroSlides.length : Int) then heroSlides
  else (heroSlides.map (fun _ => false)).set index.toNat true

/-- The function `nextSlide`; the remainder is the truncating one of the source
language. -/
def nextSlide (s : Slideshow) : Slideshow :=
  let currentSlide := (s.currentSlide + 1).tmod (s.heroSlides.length : Int)
  ⟨currentSlide, showSlide currentSlide s.heroSlides⟩

/-- The function `prevSlide`. -/
def prevSlide (s : Slideshow) : Slideshow :=
  let currentSlide :=
    (s.currentSlide - 1 + (s.heroSlides.length : Int)).tmod (s.heroSlides.length : Int)
  ⟨currentSlide, showSlide currentSlide s.heroSlides⟩

/-- The set-up of `initHeroSlideshow`: nothing when there is no slide, otherwise
the counter starts at 0 and slide 0 is shown. -/
def initHeroSlideshow (heroSlides : List Bool) : Option Slideshow :=
  if heroSlides.length = 0 then none
  else some ⟨0, showSlide 0 heroSlides⟩

/-! ## Sample inputs -/

/-- A 401 answer with a JSON body. -/
def sampleUnauthorized : FetchOutcome :=
  .resolved ⟨false, 401, .ok (.obj (.cons "error" (.str "Invalid credentials") .nil))⟩

/-- A success answer carrying a token. -/
def sampleSuccess : FetchOutcome :=
  .resolved ⟨true, 200, .ok (.obj (.cons "token" (.str "t0k3n") .nil))⟩

/-- A server that answers 401 to its first `k` calls and succeeds afterwards. -/
def failsThenSucceeds (k : Nat) : Nat → FetchOutcome :=
  fun n => if n < k then sampleUnauthorized else sampleSuccess

/-- A server that answers 401 to every call. -/
def alwaysUnauthorized : Nat → FetchOutcome := fun _ => sampleUnauthorized

/-- The rejection `fetch` raises when no response is received: a `TypeError`
carrying a message and nothing else. -/
def fetchTypeError : JSVal :=
  .obj (.cons "name" (.str "TypeError") (.cons "message" (.str "Failed to fetch") .nil))

/-- A network that is down: every call of `fetch` is rejected. -/
def alwaysOffline : Nat → FetchOutcome := fun _ => .rejected fetchTypeError

/-- A server that answers 500 with a body that is not JSON to every call. -/
def alwaysServerErrorHtml : Nat → FetchOutcome :=
  fun _ => .resolved ⟨false, 500, .error (newError "Unexpected token < in JSON")⟩

/-- A failure value that carries a `request` and no `response`. -/
def requestOnlyFailure : JSVal :=
  .obj (.cons "request" (.obj .nil) (.cons "message" (.str "timeout") .nil))

/-- A server that answers 400 with the JSON body `null` to every call. -/
def alwaysBadRequestNull : Nat → FetchOutcome :=
  fun _ => .resolved ⟨false, 400, .ok .null⟩

/-- A server that succeeds at once. -/
def alwaysSuccess : Nat → FetchOutcome := fun _ => sampleSuccess

/-! ## Auxiliary facts about the retry loop -/

theorem fetchesOf_failedRounds (endpoint : String) (options : JSVal) (m : Nat) :
    ∀ i, fetchesOf (failedRounds endpoint options i m ++ [Event.fetch endpoint options])
      = m + 1 := by
  induction m with
  | zero => intro i; simp [failedRounds, fetchesOf]
  | succ m ih => intro i; simp [failedRounds, fetchesOf, ih]

theorem waitsOf_failedRounds (endpoint : String) (options : JSVal) (m : Nat) :
    ∀ i, waitsOf (failedRounds endpoint options i m ++ [Event.fetch endpoint options])
      = (List.range m).map (fun j => config.RETRY_DELAY * (((i + j : Nat) : Int) + 1)) := by
  induction m with
  | zero => intro i; simp [failedRounds, waitsOf]
  | succ m ih =>
    intro i
    have hmap : List.map ((fun j => config.RETRY_DELAY * (((i + j : Nat) : Int) + 1)) ∘ Nat.succ)
          (List.range m)
        = List.map (fun j => config.RETRY_DELAY * (((i + 1 + j : Nat) : Int) + 1))
          (List.range m) := by
      apply List.map_congr_left
      intro j _
      simp only [Function.comp]
      congr 3
      omega
    rw [List.range_succ_eq_map, List.map_cons, List.map_map, hmap]
    show waitsOf (Event.fetch endpoint options ::
      Event.wait (config.RETRY_DELAY * ((i : Int) + 1)) ::
        (failedRounds endpoint options (i + 1) m ++ [Event.fetch endpoint options])) = _
    simp only [waitsOf]
    rw [ih (i + 1)]
    simp

/-- When the first `m` calls from the current one fail, the call after them
succeeds, and the budget admits all of them, the loop returns that success. -/
theorem retryLoop_succeeds (script : Nat → FetchOutcome) (endpoint : String)
    (options : JSVal) (b : Int) (v : JSVal) :
    ∀ (m fuel i : Nat) (w : World), (i : Int) + m < b → m < fuel →
      (∀ j, j < m → ∃ e, apiRequestOutcome (script (w.calls + j)) = .error e) →
      apiRequestOutcome (script (w.calls + m)) = .ok v →
      retryLoop script endpoint options b fuel i w
        = some (.ok v, ⟨w.calls + m + 1,
            w.trace ++ (failedRounds endpoint options i m ++ [Event.fetch endpoint options])⟩) := by
  intro m
  induction m with
  | zero =>
    intro fuel i w hi hfuel _ hok
    obtain ⟨fuel, rfl⟩ : ∃ f, fuel = f + 1 := ⟨fuel - 1, by omega⟩
    have hlt : (i : Int) < b := by omega
    simp only [Nat.add_zero] at hok
    simp [retryLoop, hlt, apiRequest, hok, failedRounds]
  | succ m ih =>
    intro fuel i w hi hfuel hfail hok
    obtain ⟨fuel, rfl⟩ : ∃ f, fuel = f + 1 := ⟨fuel - 1, by omega⟩
    have hlt : (i : Int) < b := by omega
    have hne : ¬ (i : Int) = b - 1 := by omega
    obtain ⟨e, he⟩ := hfail 0 (by omega)
    simp only [Nat.add_zero] at he
    have hstep := ih fuel (i + 1)
      ⟨w.calls + 1, w.trace ++ [Event.fetch endpoint options] ++
        [Event.wait (config.RETRY_DELAY * ((i : Int) + 1))]⟩
      (by push_cast; omega) (by omega)
      (by
        intro j hj
        have := hfail (j + 1) (by omega)
        simpa [Nat.add_assoc, Nat.add_comm 1 j] using this)
      (by simpa [Nat.add_assoc, Nat.add_comm 1 m] using hok)
    simp only [retryLoop, hlt, if_true, apiRequest, he, hne, if_false]
    rw [hstep]
    simp [failedRounds, Nat.add_assoc, Nat.add_comm 1 m]

/-- When every call up to the last one the budget admits fails, the loop
rethrows the failure of that last call. -/
theorem retryLoop_exhausts (script : Nat → FetchOutcome) (endpoint : String)
    (options : JSVal) (b : Int) (e : JSVal) :
    ∀ (m fuel i : Nat) (w : World), (i : Int) + m + 1 = b → m < fuel →
      (∀ j, j < m → ∃ e, apiRequestOutcome (script (w.calls + j)) = .error e) →
      apiRequestOutcome (script (w.calls + m)) = .error e →
      retryLoop script endpoint options b fuel i w
        = some (.error e, ⟨w.calls + m + 1,
            w.trace ++ (failedRounds endpoint options i m ++ [Event.fetch endpoint options])⟩) := by
  intro m
  induction m with
  | zero =>
    intro fuel i w hi hfuel _ hlast
    obtain ⟨fuel, rfl⟩ : ∃ f, fuel = f + 1 := ⟨fuel - 1, by omega⟩
    have hlt : (i : Int) < b := by omega
    have heq : (i : Int) = b - 1 := by omega
    simp only [Nat.add_zero] at hlast
    simp [retryLoop, hlt, apiRequest, hlast, heq, failedRounds]
  | succ m ih =>
    intro fuel i w hi hfuel hfail hlast
    obtain ⟨fuel, rfl⟩ : ∃ f, fuel = f + 1 := ⟨fuel - 1, by omega⟩
    have hlt : (i : Int) < b := by omega
    have hne : ¬ (i : Int) = b - 1 := by omega
    obtain ⟨e0, he0⟩ := hfail 0 (by omega)
    simp only [Nat.add_zero] at he0
    have hstep := ih fuel (i + 1)
      ⟨w.calls + 1, w.trace ++ [Event.fetch endpoint options] ++
        [Event.wait (config.RETRY_DELAY * ((i : Int) + 1))]⟩
      (by push_cast; omega) (by omega)
      (by
        intro j hj
        have := hfail (j + 1) (by omega)
        simpa [Nat.add_assoc, Nat.add_comm 1 j] using this)
      (by simpa [Nat.add_assoc, Nat.add_comm 1 m] using hlast)
    simp only [retryLoop, hlt, if_true, apiRequest, he0, hne, if_false]
    rw [hstep]
    simp [failedRounds, Nat.add_assoc, Nat.add_comm 1 m]

/-- The iteration bound of the wrapper is never hit: the loop always completes. -/
theorem retryLoop_total (script : Nat → FetchOutcome) (endpoint : String)
    (options : JSVal) (b : Int) :
    ∀ (fuel i : Nat) (w : World), b ≤ (i : Int) + fuel →
      (retryLoop script endpoint options b fuel i w).isSome = true := by
  intro fuel
  induction fuel with
  | zero =>
    intro i w h
    have : ¬ (i : Int) < b := by omega
    simp [retryLoop, this]
  | succ fuel ih =>
    intro i w h
    unfold retryLoop
    split
    · simp only [apiRequest]
      split
      · simp
      · split
        · simp
        · exact ih _ _ (by push_cast; omega)
    · simp

/-- The retry wrapper always completes, whatever the server does and whatever
the budget is. -/
theorem apiRequestWithRetry_total (script : Nat → FetchOutcome) (endpoint : String)
    (options : JSVal) (b : Int) (w : World) :
    (apiRequestWithRetry script endpoint options b w).isSome = true := by
  apply retryLoop_total
  have := Int.self_le_toNat b
  omega

/-! ## Retry wrapper: claims -/

/-- C1: when the request utility fails on its first `k` calls and succeeds on
call `k+1`, and the budget `b` is at least `k+1`, the retry wrapper returns
exactly that success value, makes exactly `k+1` calls (the last event is the
successful call), and waits exactly `k` times, the i-th wait being
`RETRY_DELAY * i` milliseconds, each wait following the failed call it belongs
to. -/
theorem apiRequestWithRetry_returns_first_success (script : Nat → FetchOutcome)
    (endpoint : String) (options : JSVal) (k : Nat) (b : Int) (v : JSVal)
    (hb : (k : Int) + 1 ≤ b)
    (hfail : ∀ j, j < k → ∃ e, apiRequestOutcome (script j) = .error e)
    (hok : apiRequestOutcome (script k) = .ok v) :
    ∃ w : World,
      apiRequestWithRetry script endpoint options b World.init = some (.ok v, w) ∧
      w.calls = k + 1 ∧ fetchesOf w.trace = k + 1 ∧
      waitsOf w.trace
        = (List.range k).map (fun (i : Nat) => config.RETRY_DELAY * ((i : Int) + 1)) ∧
      w.trace = failedRounds endpoint options 0 k ++ [Event.fetch endpoint options] := by
  refine ⟨⟨k + 1, failedRounds endpoint options 0 k ++ [Event.fetch endpoint options]⟩,
    ?_, rfl, fetchesOf_failedRounds endpoint options k 0, ?_, rfl⟩
  · have h := retryLoop_succeeds script endpoint options b v k b.toNat 0 World.init
      (by push_cast; omega) (by omega)
      (by intro j hj; simpa [World.init] using hfail j hj)
      (by simpa [World.init] using hok)
    simpa [apiRequestWithRetry, World.init] using h
  · simpa using waitsOf_failedRounds endpoint options k 0

/-- C1, at a server failing twice and then succeeding, with budget 3. -/
theorem apiRequestWithRetry_returns_first_success_witness :
    ((2 : Nat) : Int) + 1 ≤ 3 ∧
    (∀ j, j < 2 → ∃ e, apiRequestOutcome (failsThenSucceeds 2 j) = .error e) ∧
    apiRequestOutcome (failsThenSucceeds 2 2)
      = .ok (.obj (.cons "token" (.str "t0k3n") .nil)) ∧
    ∃ w : World,
      apiRequestWithRetry (failsThenSucceeds 2) "/login" .undefined 3 World.init
        = some (.ok (.obj (.cons "token" (.str "t0k3n") .nil)), w) ∧
      w.calls = 2 + 1 ∧ fetchesOf w.trace = 2 + 1 ∧
      waitsOf w.trace
        = (List.range 2).map (fun (i : Nat) => config.RETRY_DELAY * ((i : Int) + 1)) ∧
      w.trace = failedRounds "/login" .undefined 0 2 ++ [Event.fetch "/login" .undefined] :=
  have hfail : ∀ j, j < 2 → ∃ e, apiRequestOutcome (failsThenSucceeds 2 j) = .error e := by
    intro j hj
    simp [failsThenSucceeds, hj, sampleUnauthorized, apiRequestOutcome]
  ⟨by decide, hfail, by decide,
    apiRequestWithRetry_returns_first_success (failsThenSucceeds 2) "/login" .undefined 2 3 _
      (by decide) hfail (by decide)⟩

/-- C2 as stated fails at budget 0: with a server that fails every call and
`k = 1`, the wrapper makes no call and completes normally with `undefined`
instead of failing. -/
theorem apiRequestWithRetry_zero_budget_does_not_fail :
    (0 : Int) ≤ ((1 : Nat) : Int) ∧
    (∀ j, j < 1 → ∃ e, apiRequestOutcome (alwaysUnauthorized j) = .error e) ∧
    apiRequestWithRetry alwaysUnauthorized "/login" .undefined 0 World.init
      = some (.ok .undefined, World.init) ∧
    ¬ ∃ e w, apiRequestWithRetry alwaysUnauthorized "/login" .undefined 0 World.init
      = some (.error e, w) := by
  refine ⟨by decide, ?_, by decide, ?_⟩
  · intro j _
    simp [alwaysUnauthorized, sampleUnauthorized, apiRequestOutcome]
  · rintro ⟨e, w, h⟩
    have h0 : apiRequestWithRetry alwaysUnauthorized "/login" .undefined 0 World.init
        = some (.ok .undefined, World.init) := by decide
    rw [h0] at h
    cases h

/-- C2 (amended): for every budget `b` with `1 ≤ b ≤ k`, when the request utility
fails on each of its first `k` calls, the retry wrapper makes exactly `b` calls
(with the `b-1` waits between them) and then fails with the very value the
`b`-th call raised. -/
theorem apiRequestWithRetry_rethrows_last_failure (script : Nat → FetchOutcome)
    (endpoint : String) (options : JSVal) (k b : Nat) (e : JSVal)
    (hb1 : 1 ≤ b) (hbk : b ≤ k)
    (hfail : ∀ j, j < k → ∃ e, apiRequestOutcome (script j) = .error e)
    (hlast : apiRequestOutcome (script (b - 1)) = .error e) :
    ∃ w : World,
      apiRequestWithRetry script endpoint options (b : Int) World.init = some (.error e, w) ∧
      w.calls = b ∧ fetchesOf w.trace = b ∧
      waitsOf w.trace
        = (List.range (b - 1)).map (fun (i : Nat) => config.RETRY_DELAY * ((i : Int) + 1)) ∧
      w.trace = failedRounds endpoint options 0 (b - 1) ++ [Event.fetch endpoint options] := by
  obtain ⟨m, rfl⟩ : ∃ m, b = m + 1 := ⟨b - 1, by omega⟩
  simp only [Nat.add_sub_cancel] at hlast ⊢
  refine ⟨⟨m + 1, failedRounds endpoint options 0 m ++ [Event.fetch endpoint options]⟩,
    ?_, rfl, fetchesOf_failedRounds endpoint options m 0, ?_, rfl⟩
  · have h := retryLoop_exhausts script endpoint options ((m + 1 : Nat) : Int) e m
      (((m + 1 : Nat) : Int)).toNat 0 World.init
      (by push_cast; omega) (by simp)
      (by intro j hj; simpa [World.init] using hfail j (by omega))
      (by simpa [World.init] using hlast)
    simpa [apiRequestWithRetry, World.init] using h
  · simpa using waitsOf_failedRounds endpoint options m 0

/-- C2 (amended), at a server that always answers 401, with `k = 5` and budget 3. -/
theorem apiRequestWithRetry_rethrows_last_failure_witness :
    1 ≤ 3 ∧ 3 ≤ 5 ∧
    (∀ j, j < 5 → ∃ e, apiRequestOutcome (alwaysUnauthorized j) = .error e) ∧
    apiRequestOutcome (alwaysUnauthorized (3 - 1))
      = .error (statusFailure 401 (.obj (.cons "error" (.str "Invalid credentials") .nil))) ∧
    ∃ w : World,
      apiRequestWithRetry alwaysUnauthorized "/login" .undefined ((3 : Nat) : Int) World.init
        = some (.error (statusFailure 401
            (.obj (.cons "error" (.str "Invalid credentials") .nil))), w) ∧
      w.calls = 3 ∧ fetchesOf w.trace = 3 ∧
      waitsOf w.trace
        = (List.range (3 - 1)).map (fun (i : Nat) => config.RETRY_DELAY * ((i : Int) + 1)) ∧
      w.trace = failedRounds "/login" .undefined 0 (3 - 1) ++ [Event.fetch "/login" .undefined] :=
  have hfail : ∀ j, j < 5 → ∃ e, apiRequestOutcome (alwaysUnauthorized j) = .error e := by
    intro j _
    simp [alwaysUnauthorized, sampleUnauthorized, apiRequestOutcome]
  ⟨by decide, by decide, hfail, by decide,
    apiRequestWithRetry_rethrows_last_failure alwaysUnauthorized "/login" .undefined 5 3 _
      (by decide) (by decide) hfail (by decide)⟩

/-! ## Error classifier: claims -/

/-- Reading the body of a response that is present never throws. -/
theorem getProp_of_truthy (response : JSVal) (k : String) (h : truthy response = true) :
    ∃ d, getProp response k = .ok d := by
  cases response <;> simp [truthy] at h <;> simp [getProp]

/-- C3: for every failure value carrying a response whose status is 401, 403,
404, 429 or 500, the classifier returns the fixed message of that status,
whatever the response body and the context argument are. -/
theorem handleApiError_fixed_messages (error response : JSVal) (context : String) (s : Int)
    (hresp : getProp error "response" = .ok response)
    (hpresent : truthy response = true)
    (hstatus : getProp response "status" = .ok (.num s)) :
    (s = 401 → handleApiError error context
      = .ok "Authentication failed. Please check your credentials.") ∧
    (s = 403 → handleApiError error context
      = .ok "Access denied. You do not have permission for this action.") ∧
    (s = 404 → handleApiError error context = .ok "Resource not found.") ∧
    (s = 429 → handleApiError error context
      = .ok "Too many requests. Please try again later.") ∧
    (s = 500 → handleApiError error context = .ok "Server error. Please try again later.") := by
  obtain ⟨data, hdata⟩ := getProp_of_truthy response "data" hpresent
  refine ⟨?_, ?_, ?_, ?_, ?_⟩ <;> intro hs <;> subst hs <;>
    simp [handleApiError, hresp, hpresent, hstatus, hdata]

/-- C3, at the failure raised for a 401 answer whose body is `null`. -/
theorem handleApiError_fixed_messages_witness :
    getProp (statusFailure 401 .null) "response"
      = .ok (.obj (.cons "status" (.num 401) (.cons "data" .null .nil))) ∧
    truthy (.obj (.cons "status" (.num 401) (.cons "data" .null .nil))) = true ∧
    getProp (.obj (.cons "status" (.num 401) (.cons "data" .null .nil))) "status"
      = .ok (.num 401) ∧
    ((401 : Int) = 401 → handleApiError (statusFailure 401 .null) "Admin Login"
      = .ok "Authentication failed. Please check your credentials.") ∧
    ((401 : Int) = 403 → handleApiError (statusFailure 401 .null) "Admin Login"
      = .ok "Access denied. You do not have permission for this action.") ∧
    ((401 : Int) = 404 → handleApiError (statusFailure 401 .null) "Admin Login"
      = .ok "Resource not found.") ∧
    ((401 : Int) = 429 → handleApiError (statusFailure 401 .null) "Admin Login"
      = .ok "Too many requests. Please try again later.") ∧
    ((401 : Int) = 500 → handleApiError (statusFailure 401 .null) "Admin Login"
      = .ok "Server error. Please try again later.") :=
  ⟨by decide, by decide, by decide,
    handleApiError_fixed_messages (statusFailure 401 .null)
      (.obj (.cons "status" (.num 401) (.cons "data" .null .nil))) "Admin Login" 401
      (by decide) (by decide) (by decide)⟩

/-- C4 as stated fails when the detail is present but falsy: for a 400 answer
whose body carries the `error` field `""` (or `0`), the classifier fills the
template with the default text, not with the detail. -/
theorem handleApiError_present_empty_detail_uses_default :
    JSFields.lookup "error" (.cons "error" (.str "") .nil) = some (.str "") ∧
    handleApiError (statusFailure 400 (.obj (.cons "error" (.str "") .nil))) "Admin Login"
      = .ok "Validation error: Invalid data provided" ∧
    handleApiError (statusFailure 400 (.obj (.cons "error" (.str "") .nil))) "Admin Login"
      ≠ .ok ("Validation error: " ++ "") ∧
    JSFields.lookup "error" (.cons "error" (.num 0) .nil) = some (.num 0) ∧
    handleApiError (statusFailure 400 (.obj (.cons "error" (.num 0) .nil))) "Admin Login"
      = .ok "Validation error: Invalid data provided" ∧
    handleApiError (statusFailure 400 (.obj (.cons "error" (.num 0) .nil))) "Admin Login"
      ≠ .ok ("Validation error: " ++ "0") := by
  decide

/-- Below `2^53` in magnitude a number prints as its decimal digits. -/
theorem jsNumberText_of_lt (n : Int) (h : n.natAbs < 2 ^ 53) : jsNumberText n = toString n := by
  unfold jsNumberText
  rw [if_pos h]

/-- Beyond `2^53` a number prints as its shortest digit string: padded with zeros
up to 21 digits, in exponent form from `10^21` on. -/
theorem jsNumberText_large_values :
    jsNumberText (2 ^ 53) = "9007199254740992" ∧
    jsNumberText (2 ^ 64) = "18446744073709552000" ∧
    jsNumberText (-(2 ^ 64)) = "-18446744073709552000" ∧
    jsNumberText (10 ^ 21) = "1e+21" ∧
    jsNumberText (2 ^ 70) = "1.1805916207174113e+21" ∧
    jsNumberText (2 ^ 100) = "1.2676506002282294e+30" ∧
    (JSVal.num (10 ^ 21)).toStr = .ok "1e+21" := by
  decide

/-- C4 (amended): for every failure value carrying a response whose status is
400 or lies outside 401, 403, 404, 429, 500 (an integer below `2^53` in
magnitude, as every HTTP status is), and whose body can be read (it is neither
`null` nor `undefined`), the classifier returns that status's template filled
with the fixed default when the body's `error` field is absent or falsy, and
filled with the field itself when it is a non-empty string, `true`, or a
non-zero integer below `2^53` in magnitude (printed in decimal digits). -/
theorem handleApiError_templated_messages (error response data detail : JSVal)
    (context : String) (s : Int)
    (hresp : getProp error "response" = .ok response)
    (hpresent : truthy response = true)
    (hstatus : getProp response "status" = .ok (.num s))
    (hdata : getProp response "data" = .ok data)
    (hdetail : getProp data "error" = .ok detail) :
    (s = 400 →
      (truthy detail = false → handleApiError error context
        = .ok "Validation error: Invalid data provided") ∧
      (∀ d, detail = .str d → d ≠ "" → handleApiError error context
        = .ok ("Validation error: " ++ d)) ∧
      (detail = .bool true → handleApiError error context
        = .ok "Validation error: true") ∧
      (∀ n : Int, detail = .num n → n ≠ 0 → n.natAbs < 2 ^ 53 →
        handleApiError error context = .ok ("Validation error: " ++ toString n))) ∧
    (s ≠ 400 → s ≠ 401 → s ≠ 403 → s ≠ 404 → s ≠ 429 → s ≠ 500 → s.natAbs < 2 ^ 53 →
      (truthy detail = false → handleApiError error context
        = .ok ("Server error (" ++ toString s ++ "): " ++ "Unknown error")) ∧
      (∀ d, detail = .str d → d ≠ "" → handleApiError error context
        = .ok ("Server error (" ++ toString s ++ "): " ++ d)) ∧
      (detail = .bool true → handleApiError error context
        = .ok ("Server error (" ++ toString s ++ "): " ++ "true")) ∧
      (∀ n : Int, detail = .num n → n ≠ 0 → n.natAbs < 2 ^ 53 →
        handleApiError error context
          = .ok ("Server error (" ++ toString s ++ "): " ++ toString n))) := by
  constructor
  · intro hs
    subst hs
    refine ⟨?_, ?_, ?_, ?_⟩
    · intro hf
      simp [handleApiError, hresp, hpresent, hstatus, hdata, hdetail, jsOr, hf, JSVal.toStr]
    · intro d hd hne
      subst hd
      have ht : truthy (.str d) = true := by simp [truthy, hne]
      simp [handleApiError, hresp, hpresent, hstatus, hdata, hdetail, jsOr, ht, JSVal.toStr]
    · intro hd
      subst hd
      have ht : truthy (.bool true) = true := rfl
      simp [handleApiError, hresp, hpresent, hstatus, hdata, hdetail, jsOr, ht, JSVal.toStr]
    · intro n hd hne hn
      subst hd
      have ht : truthy (.num n) = true := by simp [truthy, hne]
      simp [handleApiError, hresp, hpresent, hstatus, hdata, hdetail, jsOr, ht, JSVal.toStr,
        jsNumberText_of_lt n hn]
  · intro h400 h401 h403 h404 h429 h500 hsafe
    have hst := jsNumberText_of_lt s hsafe
    refine ⟨?_, ?_, ?_, ?_⟩
    · intro hf
      simp [handleApiError, hresp, hpresent, hstatus, hdata, hdetail, jsOr, hf, JSVal.toStr,
        h400, h401, h403, h404, h429, h500, hst]
    · intro d hd hne
      subst hd
      have ht : truthy (.str d) = true := by simp [truthy, hne]
      simp [handleApiError, hresp, hpresent, hstatus, hdata, hdetail, jsOr, ht,
        JSVal.toStr, h400, h401, h403, h404, h429, h500, hst]
    · intro hd
      subst hd
      have ht : truthy (.bool true) = true := rfl
      simp [handleApiError, hresp, hpresent, hstatus, hdata, hdetail, jsOr, ht,
        JSVal.toStr, h400, h401, h403, h404, h429, h500, hst]
    · intro n hd hne hn
      subst hd
      have ht : truthy (.num n) = true := by simp [truthy, hne]
      simp [handleApiError, hresp, hpresent, hstatus, hdata, hdetail, jsOr, ht,
        JSVal.toStr, h400, h401, h403, h404, h429, h500, hst, jsNumberText_of_lt n hn]

/-- C4 (amended), at the failure raised for a 418 answer with a detail. -/
theorem handleApiError_templated_messages_witness :
    getProp (statusFailure 418 (.obj (.cons "error" (.str "teapot") .nil))) "response"
      = .ok (.obj (.cons "status" (.num 418)
          (.cons "data" (.obj (.cons "error" (.str "teapot") .nil)) .nil))) ∧
    truthy (.obj (.cons "status" (.num 418)
      (.cons "data" (.obj (.cons "error" (.str "teapot") .nil)) .nil))) = true ∧
    getProp (.obj (.cons "status" (.num 418)
      (.cons "data" (.obj (.cons "error" (.str "teapot") .nil)) .nil))) "status"
      = .ok (.num 418) ∧
    getProp (.obj (.cons "status" (.num 418)
      (.cons "data" (.obj (.cons "error" (.str "teapot") .nil)) .nil))) "data"
      = .ok (.obj (.cons "error" (.str "teapot") .nil)) ∧
    getProp (.obj (.cons "error" (.str "teapot") .nil)) "error" = .ok (.str "teapot") ∧
    (418 : Int).natAbs < 2 ^ 53 ∧
    handleApiError (statusFailure 418 (.obj (.cons "error" (.str "teapot") .nil))) "Admin Login"
      = .ok ("Server error (" ++ toString (418 : Int) ++ "): " ++ "teapot") :=
  ⟨by decide, by decide, by decide, by decide, by decide, by decide,
    ((handleApiError_templated_messages
      (statusFailure 418 (.obj (.cons "error" (.str "teapot") .nil)))
      (.obj (.cons "status" (.num 418)
        (.cons "data" (.obj (.cons "error" (.str "teapot") .nil)) .nil)))
      (.obj (.cons "error" (.str "teapot") .nil)) (.str "teapot") "Admin Login" 418
      (by decide) (by decide) (by decide) (by decide) (by decide)).2
        (by decide) (by decide) (by decide) (by decide) (by decide) (by decide)
        (by decide)).2.1
      "teapot" rfl (by decide)⟩

/-- C5, at the failing input: the rejection that `fetch` raises when no response
is received carries no response; the request utility rethrows it unchanged; the
classifier answers it with the generic message, not with the connectivity
message of its network-error branch; and a login attempted while the network is
down ends, after three calls, with that generic message as the notification. -/
theorem handleApiError_fetch_rejection_is_unexpected :
    getProp fetchTypeError "response" = .ok .undefined ∧
    apiRequestOutcome (.rejected fetchTypeError) = .error fetchTypeError ∧
    handleApiError fetchTypeError "Admin Login" = .ok "An unexpected error occurred." ∧
    handleApiError fetchTypeError "Admin Login"
      ≠ .ok "Network error. Please check your connection." ∧
    (submitLogin alwaysOffline "admin" "secret123" LoginUI.init World.init).map
      (fun r => (r.1, r.2.1.notifications, r.2.2.calls))
      = some (.ok (), [("An unexpected error occurred.", "error")], 3) := by
  decide

/-- The network-error branch of the classifier: a failure value that carries no
response and carries a truthy `request` field gets the connectivity message,
whatever other fields it has. -/
theorem handleApiError_network_message (error response request : JSVal) (context : String)
    (hresp : getProp error "response" = .ok response)
    (habsent : truthy response = false)
    (hreq : getProp error "request" = .ok request)
    (hrequest : truthy request = true) :
    handleApiError error context = .ok "Network error. Please check your connection." := by
  simp [handleApiError, hresp, habsent, hreq, hrequest]

/-- The network-error branch, at a failure value with a `request` and a
`message` field. -/
theorem handleApiError_network_message_witness :
    getProp requestOnlyFailure "response" = .ok .undefined ∧
    truthy .undefined = false ∧
    getProp requestOnlyFailure "request" = .ok (.obj .nil) ∧
    truthy (.obj .nil) = true ∧
    handleApiError requestOnlyFailure "Admin Login"
      = .ok "Network error. Please check your connection." :=
  ⟨by decide, by decide, by decide, by decide,
    handleApiError_network_message requestOnlyFailure .undefined (.obj .nil) "Admin Login"
      (by decide) (by decide) (by decide) (by decide)⟩

/-- C8, at the failing input: a 400 answer (and likewise a 418 answer) whose
JSON body is `null` makes the request utility raise a status failure with body
`null`; the classifier then throws a `TypeError` instead of returning a
message, and the login handler ends with no error notification shown. -/
theorem handleApiError_throws_on_null_body :
    apiRequestOutcome (.resolved ⟨false, 400, .ok .null⟩) = .error (statusFailure 400 .null) ∧
    handleApiError (statusFailure 400 .null) "Admin Login" = .error typeError ∧
    handleApiError (statusFailure 418 .null) "Admin Login" = .error typeError ∧
    (submitLogin alwaysBadRequestNull "admin" "secret123" LoginUI.init World.init).map
      (fun r => (r.1, r.2.1.notifications, r.2.2.calls))
      = some (.error typeError, [], 3) := by
  decide

/-! ## Request utility: claims -/

/-- C9: for every received response whose `ok` flag is false, with status `s`,
the request utility fails (it returns no value), after exactly one call of
`fetch`, with the record whose `response` field holds `status` equal to `s` and
`data` equal to the decoded body: the JSON value when decoding succeeds, the
empty record when decoding fails (malformed or absent body). -/
theorem apiRequest_status_failure (script : Nat → FetchOutcome) (endpoint : String)
    (options : JSVal) (w : World) (r : Response)
    (hfetch : script w.calls = .resolved r) (hfail : r.ok = false) :
    (∀ d, r.json = .ok d →
      (apiRequest script endpoint options w).1
        = .error (.obj (.cons "response"
            (.obj (.cons "status" (.num r.status) (.cons "data" d .nil))) .nil))) ∧
    (∀ x, r.json = .error x →
      (apiRequest script endpoint options w).1
        = .error (.obj (.cons "response"
            (.obj (.cons "status" (.num r.status) (.cons "data" (.obj .nil) .nil))) .nil))) ∧
    (∀ v, (apiRequest script endpoint options w).1 ≠ .ok v) ∧
    (∃ e resp, (apiRequest script endpoint options w).1 = .error e ∧
      getProp e "response" = .ok resp ∧ getProp resp "status" = .ok (.num r.status) ∧
      getProp resp "data" = .ok (match r.json with
        | .ok d => d
        | .error _ => .obj .nil)) ∧
    (apiRequest script endpoint options w).2
      = ⟨w.calls + 1, w.trace ++ [Event.fetch endpoint options]⟩ := by
  refine ⟨?_, ?_, ?_, ?_, rfl⟩
  · intro d hd
    simp [apiRequest, hfetch, apiRequestOutcome, hfail, hd, statusFailure]
  · intro x hx
    simp [apiRequest, hfetch, apiRequestOutcome, hfail, hx, statusFailure, emptyRecord]
  · intro v
    simp [apiRequest, hfetch, apiRequestOutcome, hfail]
  · cases hj : r.json <;>
      simp [apiRequest, hfetch, apiRequestOutcome, hfail, hj, statusFailure, emptyRecord,
        getProp, JSFields.lookup]

/-- C9, at a 500 answer whose body is not JSON (decoding rejects) and at a 401
answer with a JSON body, from the initial world. -/
theorem apiRequest_status_failure_witness :
    alwaysServerErrorHtml World.init.calls
      = .resolved ⟨false, 500, .error (newError "Unexpected token < in JSON")⟩ ∧
    (Response.mk false 500 (.error (newError "Unexpected token < in JSON"))).ok = false ∧
    (apiRequest alwaysServerErrorHtml "/login" .undefined World.init).1
      = .error (.obj (.cons "response"
          (.obj (.cons "status" (.num 500) (.cons "data" (.obj .nil) .nil))) .nil)) ∧
    (apiRequest alwaysUnauthorized "/login" .undefined World.init).1
      = .error (.obj (.cons "response"
          (.obj (.cons "status" (.num 401)
            (.cons "data" (.obj (.cons "error" (.str "Invalid credentials") .nil)) .nil)))
          .nil)) :=
  ⟨rfl, rfl,
    (apiRequest_status_failure alwaysServerErrorHtml "/login" .undefined World.init
      ⟨false, 500, .error (newError "Unexpected token < in JSON")⟩ rfl rfl).2.1 _ rfl,
    (apiRequest_status_failure alwaysUnauthorized "/login" .undefined World.init
      ⟨false, 401, .ok (.obj (.cons "error" (.str "Invalid credentials") .nil))⟩
      rfl rfl).1 _ rfl⟩

/-! ## Login submit handler: claims -/

/-- The classifier on the failure raised for a 401 answer, whatever its body. -/
theorem handleApiError_statusFailure_401 (d : JSVal) (context : String) :
    handleApiError (statusFailure 401 d) context
      = .ok "Authentication failed. Please check your credentials." := by
  simp [handleApiError, statusFailure, getProp, JSFields.lookup, truthy]

/-- A 401 answer makes the request utility raise a status failure of status 401. -/
theorem apiRequestOutcome_401 (json : Except JSVal JSVal) :
    ∃ d, apiRequestOutcome (.resolved ⟨false, 401, json⟩) = .error (statusFailure 401 d) := by
  cases json <;> simp [apiRequestOutcome]

/-- C6: when the login form is submitted with non-empty credentials and the
server answers each of the three attempts of the default budget with status
401, the request utility is called exactly three times (with waits of 1000 ms
and 2000 ms between the calls) and the handler then shows the error
notification `Authentication failed. Please check your credentials.`. -/
theorem submitLogin_unauthorized_three_attempts (script : Nat → FetchOutcome)
    (usernameField passwordField : String) (ui : LoginUI)
    (huser : jsTrim usernameField ≠ "") (hpass : passwordField ≠ "")
    (h401 : ∀ n, n < 3 → ∃ json, script n = .resolved ⟨false, 401, json⟩) :
    ∃ (ui1 : LoginUI) (w : World),
      submitLogin script usernameField passwordField ui World.init = some (.ok (), ui1, w) ∧
      w.calls = 3 ∧ fetchesOf w.trace = 3 ∧ waitsOf w.trace = [1000, 2000] ∧
      ui1.notifications = ui.notifications ++
        [("Authentication failed. Please check your credentials.", "error")] ∧
      ui1.submitDisabled = false ∧ ui1.adminToken = ui.adminToken ∧
      ui1.redirectScheduled = ui.redirectScheduled := by
  have hout : ∀ n, n < 3 → ∃ d, apiRequestOutcome (script n) = .error (statusFailure 401 d) := by
    intro n hn
    obtain ⟨json, hj⟩ := h401 n hn
    rw [hj]
    exact apiRequestOutcome_401 json
  obtain ⟨d2, hd2⟩ := hout 2 (by omega)
  have hloop := retryLoop_exhausts script config.ENDPOINTS_LOGIN
    (loginOptions (jsTrim usernameField) passwordField) 3 (statusFailure 401 d2) 2 3 0 World.init
    (by norm_num) (by norm_num)
    (by
      intro j hj
      obtain ⟨d, hd⟩ := hout j (by omega)
      exact ⟨_, by simpa [World.init] using hd⟩)
    (by simpa [World.init] using hd2)
  have hretry : apiRequestWithRetry script config.ENDPOINTS_LOGIN
      (loginOptions (jsTrim usernameField) passwordField) config.MAX_RETRIES World.init
      = retryLoop script config.ENDPOINTS_LOGIN
          (loginOptions (jsTrim usernameField) passwordField) 3 3 0 World.init := rfl
  have hres : submitLogin script usernameField passwordField ui World.init
      = some (.ok (),
          { showNotification { ui with submitDisabled := true, submitText := "Logging in..." }
              "Authentication failed. Please check your credentials." "error" with
            submitDisabled := false, submitText := "Login" },
          ⟨3, failedRounds config.ENDPOINTS_LOGIN
                (loginOptions (jsTrim usernameField) passwordField) 0 2 ++
              [Event.fetch config.ENDPOINTS_LOGIN
                (loginOptions (jsTrim usernameField) passwordField)]⟩) := by
    have hcall : apiRequestWithRetry script config.ENDPOINTS_LOGIN
        (loginOptions (jsTrim usernameField) passwordField) config.MAX_RETRIES World.init
        = some (.error (statusFailure 401 d2),
            ⟨3, failedRounds config.ENDPOINTS_LOGIN
                  (loginOptions (jsTrim usernameField) passwordField) 0 2 ++
                [Event.fetch config.ENDPOINTS_LOGIN
                  (loginOptions (jsTrim usernameField) passwordField)]⟩) := by
      rw [hretry, hloop]
      simp [World.init]
    simp [submitLogin, loginTry, huser, hpass, hcall, handleApiError_statusFailure_401]
  refine ⟨_, _, hres, rfl, ?_, ?_, ?_, rfl, rfl, rfl⟩
  · simp [failedRounds, fetchesOf]
  · simp [failedRounds, waitsOf, config.RETRY_DELAY]
  · simp [showNotification]

/-- C6, at the credentials `admin` / `secret123` and a server that always
answers 401. -/
theorem submitLogin_unauthorized_three_attempts_witness :
    jsTrim " admin " ≠ "" ∧ "secret123" ≠ "" ∧
    (∀ n, n < 3 → ∃ json, alwaysUnauthorized n = .resolved ⟨false, 401, json⟩) ∧
    ∃ (ui1 : LoginUI) (w : World),
      submitLogin alwaysUnauthorized " admin " "secret123" LoginUI.init World.init
        = some (.ok (), ui1, w) ∧
      w.calls = 3 ∧ fetchesOf w.trace = 3 ∧ waitsOf w.trace = [1000, 2000] ∧
      ui1.notifications = LoginUI.init.notifications ++
        [("Authentication failed. Please check your credentials.", "error")] ∧
      ui1.submitDisabled = false ∧ ui1.adminToken = LoginUI.init.adminToken ∧
      ui1.redirectScheduled = LoginUI.init.redirectScheduled :=
  have h401 : ∀ n, n < 3 → ∃ json, alwaysUnauthorized n = .resolved ⟨false, 401, json⟩ :=
    fun _ _ => ⟨_, rfl⟩
  ⟨by decide, by decide, h401,
    submitLogin_unauthorized_three_attempts alwaysUnauthorized " admin " "secret123"
      LoginUI.init (by decide) (by decide) h401⟩

/-- C7, at the failing input: submitting a username of blanks makes no network
call, but the notification shown is the generic `An unexpected error occurred.`;
the text `Username and password are required` of the raised error is shown
nowhere. -/
theorem submitLogin_blank_username_shows_generic_message :
    jsTrim "   " = "" ∧
    submitLogin alwaysSuccess "   " "secret123" LoginUI.init World.init
      = some (.ok (),
          ⟨[("An unexpected error occurred.", "error")], true, none, false, false, "Login"⟩,
          World.init) ∧
    handleApiError (newError "Username and password are required") "Admin Login"
      = .ok "An unexpected error occurred." := by
  decide

/-! ## Form validation: claims -/

/-- Dropping a prefix does not increase a sum of natural weights. -/
theorem sum_map_dropWhile_le (f : Char → Nat) (p : Char → Bool) (l : List Char) :
    ((l.dropWhile p).map f).sum ≤ (l.map f).sum := by
  induction l with
  | nil => simp
  | cons c cs ih =>
    simp only [List.dropWhile]
    split
    · simp only [List.map_cons, List.sum_cons]
      omega
    · exact le_refl _

/-- Trimming never lengthens a string. -/
theorem jsLength_jsTrim_le (s : String) : jsLength (jsTrim s) ≤ jsLength s := by
  simp only [jsLength, jsTrim, List.map_reverse, List.sum_reverse]
  exact le_trans (sum_map_dropWhile_le _ _ _)
    (by
      rw [List.map_reverse, List.sum_reverse]
      exact sum_map_dropWhile_le _ _ _)

/-- C10 as stated fails at the empty value: a `password` input that is not
required and whose value is empty (length 0, shorter than 8) is accepted, and
no error is marked. The same holds for a value of blanks. -/
theorem validateInput_accepts_empty_password :
    jsLength "" < config.MIN_PASSWORD_LENGTH ∧
    validateInput ⟨"", "password", false, false, none⟩
      = (true, ⟨"", "password", false, false, none⟩) ∧
    jsLength "   " < config.MIN_PASSWORD_LENGTH ∧
    validateInput ⟨"   ", "password", false, false, none⟩
      = (true, ⟨"   ", "password", false, false, none⟩) := by
  decide

/-- C10 (amended): for every input of type `password` whose value is shorter
than 8 characters and which is required or has a non-empty trimmed value,
validation returns false and marks the input with an error message: the
password-length message when the trimmed value is non-empty, the
required-field message otherwise. -/
theorem validateInput_rejects_short_password (input : InputEl)
    (htype : input.type = "password")
    (hshort : jsLength input.value < config.MIN_PASSWORD_LENGTH)
    (hchecked : input.required = true ∨ jsTrim input.value ≠ "") :
    (validateInput input).1 = false ∧
    (validateInput input).2.errorClass = true ∧
    (jsTrim input.value ≠ "" → (validateInput input).2.errorMessage
      = some "Password must be at least 8 characters") ∧
    (jsTrim input.value = "" → (validateInput input).2.errorMessage
      = some "This field is required") := by
  have hlen : jsLength (jsTrim input.value) < config.MIN_PASSWORD_LENGTH :=
    lt_of_le_of_lt (jsLength_jsTrim_le input.value) hshort
  have hmsg : "Password must be at least " ++ toString config.MIN_PASSWORD_LENGTH ++ " characters"
      = "Password must be at least 8 characters" := by decide
  by_cases hempty : jsTrim input.value = ""
  · have hreq : input.required = true := by
      rcases hchecked with h | h
      · exact h
      · exact absurd hempty h
    simp [validateInput, hempty, hreq, showInputError, clearInputError]
  · by_cases hreq : input.required = true
    · simp [validateInput, hempty, hreq, htype, hlen, hmsg, showInputError, clearInputError]
    · simp [validateInput, hempty, hreq, htype, hlen, hmsg, showInputError, clearInputError]

/-- C10 (amended), at a password input holding `abc`. -/
theorem validateInput_rejects_short_password_witness :
    (InputEl.mk "abc" "password" false false none).type = "password" ∧
    jsLength (InputEl.mk "abc" "password" false false none).value
      < config.MIN_PASSWORD_LENGTH ∧
    ((InputEl.mk "abc" "password" false false none).required = true ∨
      jsTrim (InputEl.mk "abc" "password" false false none).value ≠ "") ∧
    (validateInput ⟨"abc", "password", false, false, none⟩).1 = false ∧
    (validateInput ⟨"abc", "password", false, false, none⟩).2.errorClass = true :=
  have h := validateInput_rejects_short_password ⟨"abc", "password", false, false, none⟩
    (by decide) (by decide) (by decide)
  ⟨by decide, by decide, by decide, h.1, h.2.1⟩

/-- C11: for every input that has the `required` attribute and whose value is
empty after trimming, validation returns false and leaves the input marked
with the message `This field is required`, whatever its type is; no
type-specific message takes its place. -/
theorem validateInput_required_empty (input : InputEl)
    (hrequired : input.required = true) (hempty : jsTrim input.value = "") :
    validateInput input
      = (false, showInputError (clearInputError input) "This field is required") ∧
    (validateInput input).1 = false ∧
    (validateInput input).2.errorClass = true ∧
    (validateInput input).2.errorMessage = some "This field is required" := by
  have h : validateInput input
      = (false, showInputError (clearInputError input) "This field is required") := by
    simp [validateInput, hrequired, hempty]
  rw [h]
  exact ⟨rfl, rfl, rfl, rfl⟩

/-- C11, at a required `email` input holding blanks and showing an older
message. -/
theorem validateInput_required_empty_witness :
    (InputEl.mk "  " "email" true false (some "Please enter a valid email address")).required
      = true ∧
    jsTrim (InputEl.mk "  " "email" true false
      (some "Please enter a valid email address")).value = "" ∧
    (validateInput ⟨"  ", "email", true, false, some "Please enter a valid email address"⟩).1
      = false ∧
    (validateInput
      ⟨"  ", "email", true, false, some "Please enter a valid email address"⟩).2.errorMessage
      = some "This field is required" :=
  have h := validateInput_required_empty
    ⟨"  ", "email", true, false, some "Please enter a valid email address"⟩
    (by decide) (by decide)
  ⟨by decide, by decide, h.2.1, h.2.2.2⟩

/-! ## Hero slideshow: claims -/

/-- Showing a slide in range marks exactly that slide. -/
theorem showSlide_in_range (i : Nat) (heroSlides : List Bool) (h : i < heroSlides.length) :
    showSlide (i : Int) heroSlides
      = (List.range heroSlides.length).map (fun j => decide (j = i)) := by
  have h1 : ¬ ((i : Int) < 0) := by omega
  have h2 : ¬ ((i : Int) ≥ (heroSlides.length : Int)) := by omega
  simp only [showSlide, decide_eq_true_eq, Bool.or_eq_true, h1, h2, or_self, if_false,
    Int.toNat_ofNat]
  apply List.ext_getElem?
  intro j
  simp only [List.getElem?_set, List.length_map, List.getElem?_map, List.getElem?_range]
  by_cases hj : j < heroSlides.length
  · by_cases hij : i = j
    · subst hij; simp [hj]
    · have : ¬ j = i := fun h => hij h.symm
      simp [hij, hj, this, List.getElem?_eq_getElem]
  · have hne : ¬ i = j := by omega
    have ha : heroSlides[j]? = none := List.getElem?_eq_none (by omega)
    have hb : (List.range heroSlides.length)[j]? = none :=
      List.getElem?_eq_none (by simp only [List.length_range]; omega)
    simp [hne, ha, hb]

/-- Showing a slide never changes the number of slides. -/
theorem showSlide_length (index : Int) (heroSlides : List Bool) :
    (showSlide index heroSlides).length = heroSlides.length := by
  unfold showSlide
  split <;> simp

/-- One `nextSlide` from a counter in range: the counter advances cyclically and
exactly the slide it names is shown. -/
theorem nextSlide_in_range (s : Slideshow) (i : Nat) (hi : s.currentSlide = (i : Int))
    (hlt : i < s.heroSlides.length) :
    nextSlide s = ⟨(((i + 1) % s.heroSlides.length : Nat) : Int),
      (List.range s.heroSlides.length).map
        (fun j => decide (j = (i + 1) % s.heroSlides.length))⟩ := by
  have hpos : 0 < s.heroSlides.length := by omega
  have hmod : (s.currentSlide + 1).tmod (s.heroSlides.length : Int)
      = (((i + 1) % s.heroSlides.length : Nat) : Int) := by
    rw [hi, Int.tmod_eq_emod (by omega) (by omega)]
    push_cast
    rfl
  simp only [nextSlide, hmod]
  rw [showSlide_in_range _ _ (Nat.mod_lt _ hpos)]

/-- After `k` steps of `nextSlide` from a counter `i` in range, the counter is
`(i + k) mod N`, the number of slides is unchanged, and once a step was made
exactly the slide named by the counter is shown. -/
theorem nextSlide_iterate (N : Nat) (hN : 0 < N) :
    ∀ (k : Nat) (s : Slideshow) (i : Nat), s.heroSlides.length = N →
      s.currentSlide = (i : Int) → i < N →
      (nextSlide^[k] s).currentSlide = (((i + k) % N : Nat) : Int) ∧
      (nextSlide^[k] s).heroSlides.length = N ∧
      (0 < k → (nextSlide^[k] s).heroSlides
        = (List.range N).map (fun j => decide (j = (i + k) % N))) := by
  intro k
  induction k with
  | zero =>
    intro s i hlen hi hlt
    simp [hi, hlen, Nat.mod_eq_of_lt hlt]
  | succ k ih =>
    intro s i hlen hi hlt
    obtain ⟨hc, hl, _⟩ := ih s i hlen hi hlt
    have hstep := nextSlide_in_range (nextSlide^[k] s) ((i + k) % N) hc
      (by rw [hl]; exact Nat.mod_lt _ hN)
    rw [Function.iterate_succ_apply', hstep, hl]
    have hmm : ((i + k) % N + 1) % N = (i + (k + 1)) % N := by
      rw [Nat.add_mod, Nat.mod_mod, ← Nat.add_mod, Nat.add_assoc]
    simp [hmm]

/-- C12: for every slide count `N ≥ 1`, starting from current index 0, after `N`
successive `nextSlide` transitions the current index is 0 again and slide 0 is
the one (and only one) marked active; and one `prevSlide` transition from index
0 makes the current index `N-1`, with slide `N-1` the one marked active. -/
theorem slideshow_next_cycle_and_prev_wrap (s : Slideshow)
    (hN : 1 ≤ s.heroSlides.length) (h0 : s.currentSlide = 0) :
    (nextSlide^[s.heroSlides.length] s).currentSlide = 0 ∧
    (nextSlide^[s.heroSlides.length] s).heroSlides
      = (List.range s.heroSlides.length).map (fun j => decide (j = 0)) ∧
    (prevSlide s).currentSlide = (s.heroSlides.length : Int) - 1 ∧
    (prevSlide s).heroSlides
      = (List.range s.heroSlides.length).map
          (fun j => decide (j = s.heroSlides.length - 1)) := by
  obtain ⟨hc, _, ha⟩ := nextSlide_iterate s.heroSlides.length (by omega)
    s.heroSlides.length s 0 rfl (by simpa using h0) (by omega)
  have hprev : (s.currentSlide - 1 + (s.heroSlides.length : Int)).tmod
      (s.heroSlides.length : Int) = ((s.heroSlides.length - 1 : Nat) : Int) := by
    rw [h0, Int.tmod_eq_emod (by omega) (by omega)]
    have : (0 : Int) - 1 + (s.heroSlides.length : Int)
        = ((s.heroSlides.length - 1 : Nat) : Int) := by omega
    rw [this]
    exact Int.emod_eq_of_lt (by omega) (by omega)
  refine ⟨?_, ?_, ?_, ?_⟩
  · simpa using hc
  · simpa using ha (by omega)
  · simp only [prevSlide, hprev]
    omega
  · simp only [prevSlide, hprev]
    exact showSlide_in_range _ _ (by omega)

/-- C12, at the slideshow that `initHeroSlideshow` sets up for three slides. -/
theorem slideshow_next_cycle_and_prev_wrap_witness :
    initHeroSlideshow [false, true, false] = some ⟨0, [true, false, false]⟩ ∧
    1 ≤ (Slideshow.mk 0 [true, false, false]).heroSlides.length ∧
    (Slideshow.mk 0 [true, false, false]).currentSlide = 0 ∧
    (nextSlide^[3] ⟨0, [true, false, false]⟩).currentSlide = 0 ∧
    (prevSlide ⟨0, [true, false, false]⟩).currentSlide = ((3 : Nat) : Int) - 1 :=
  have h := slideshow_next_cycle_and_prev_wrap ⟨0, [true, false, false]⟩
    (by decide) (by decide)
  ⟨by decide, by decide, by decide, h.1, h.2.2.1⟩

/-! ## Retry wrapper with an empty budget: claims -/

/-- The submit handler of the page is the parametrised one at the configured
budget. -/
theorem submitLogin_eq_submitLoginWith :
    submitLogin = submitLoginWith config.MAX_RETRIES := rfl

/-- With a budget of zero or less the loop condition fails at once. -/
theorem apiRequestWithRetry_of_nonpos (script : Nat → FetchOutcome) (endpoint : String)
    (options : JSVal) (b : Int) (w : World) (hb : b ≤ 0) :
    apiRequestWithRetry script endpoint options b w = some (.ok .undefined, w) := by
  have h0 : b.toNat = 0 := Int.toNat_eq_zero.mpr hb
  simp [apiRequestWithRetry, h0, retryLoop, hb]

/-- C13: for every attempt budget `b ≤ 0` the retry wrapper makes no call and
performs no delay (the world is left as it was) and completes normally with
`undefined`: it raises no failure. A login handler whose configured budget is
`b` therefore goes on with its success handling without any call: it shows
`Login successful!` and closes the modal; reading `token` from `undefined`
then throws inside the same `try`, so the handler ends with the generic error
notification, no stored token and no redirect. -/
theorem apiRequestWithRetry_nonpositive_budget (script : Nat → FetchOutcome)
    (endpoint : String) (options : JSVal) (b : Int) (w : World) (hb : b ≤ 0) :
    apiRequestWithRetry script endpoint options b w = some (.ok .undefined, w) ∧
    (∀ e w1, apiRequestWithRetry script endpoint options b w ≠ some (.error e, w1)) ∧
    (∀ (usernameField passwordField : String) (ui : LoginUI),
      jsTrim usernameField ≠ "" → passwordField ≠ "" →
      ∃ ui1 : LoginUI,
        submitLoginWith b script usernameField passwordField ui w = some (.ok (), ui1, w) ∧
        ui1.notifications = ui.notifications ++
          [("Login successful!", "success"), ("An unexpected error occurred.", "error")] ∧
        ui1.modalOpen = false ∧ ui1.adminToken = ui.adminToken ∧
        ui1.redirectScheduled = ui.redirectScheduled ∧ ui1.submitDisabled = false) := by
  have hret := apiRequestWithRetry_of_nonpos script endpoint options b w hb
  refine ⟨hret, ?_, ?_⟩
  · intro e w1 h
    rw [hret] at h
    cases h
  · intro usernameField passwordField ui huser hpass
    have hcall := apiRequestWithRetry_of_nonpos script config.ENDPOINTS_LOGIN
      (loginOptions (jsTrim usernameField) passwordField) b w hb
    have hres : submitLoginWith b script usernameField passwordField ui w
        = some (.ok (),
            { showNotification
                { showNotification { ui with submitDisabled := true, submitText := "Logging in..." }
                    "Login successful!" "success" with modalOpen := false }
                "An unexpected error occurred." "error" with
              submitDisabled := false, submitText := "Login" }, w) := by
      simp [submitLoginWith, loginTryWith, huser, hpass, hcall, getProp, handleApiError,
        typeError, JSFields.lookup, truthy]
    exact ⟨_, hres, by simp [showNotification], rfl, rfl, rfl, rfl⟩

/-- C13, at budget 0 against a server that would succeed at once. -/
theorem apiRequestWithRetry_nonpositive_budget_witness :
    (0 : Int) ≤ 0 ∧
    apiRequestWithRetry alwaysSuccess "/login" .undefined 0 World.init
      = some (.ok .undefined, World.init) :=
  ⟨by decide,
    (apiRequestWithRetry_nonpositive_budget alwaysSuccess "/login" .undefined 0 World.init
      (by decide)).1⟩

end Kosge
